import Mathlib

set_option linter.unusedVariables false

/-!
# Verification of the appleseed sheen BRDF and serial renderer controller

Shallow embedding of `src/appleseed/renderer/modeling/bsdf/sheenbrdf.cpp`
(the `SheenBRDFImpl` scattering model: `sample`, `evaluate`, `evaluate_pdf`)
and of `src/appleseed/renderer/kernel/rendering/serialrenderercontroller.cpp`
(the pending-tile-callback queue and its drain loop).

Single-precision floats of the source are modelled by exact reals.  Library
helpers of appleseed's `foundation` layer that are only declared (not defined)
in the analysed files are modelled from the specification; each such
definition says so in its doc comment.
-/

namespace Appleseed

/-- `foundation::Vector3f`: a 3-component direction vector, channels as reals. -/
structure Vec3 where
  x : ℝ
  y : ℝ
  z : ℝ

/-- `foundation::dot` on 3-vectors: the Euclidean inner product. -/
noncomputable def dot (a b : Vec3) : ℝ :=
  a.x * b.x + a.y * b.y + a.z * b.z

/-- Componentwise vector addition (`operator+` on `Vector3f`). -/
noncomputable def vadd (a b : Vec3) : Vec3 :=
  ⟨a.x + b.x, a.y + b.y, a.z + b.z⟩

/-- Scalar multiple of a vector (`operator*` on `Vector3f`). -/
noncomputable def smul (s : ℝ) (v : Vec3) : Vec3 :=
  ⟨s * v.x, s * v.y, s * v.z⟩

/-- Modelled from the spec: `foundation::normalize` (declared in
`foundation/math/vector.h`, not part of the analysed files) divides a vector
by its Euclidean norm. -/
noncomputable def normalize (v : Vec3) : Vec3 :=
  let n := Real.sqrt (dot v v)
  ⟨v.x / n, v.y / n, v.z / n⟩

/-- Modelled from the spec: `foundation::saturate` (numeric hazard policy of
§7: the base of the power is clamped into [0,1] before the operation). -/
noncomputable def saturate (t : ℝ) : ℝ :=
  max 0 (min t 1)

/-- `foundation::pow_int<5>`: the fifth power. -/
noncomputable def pow_int5 (t : ℝ) : ℝ :=
  t ^ 5

/-- `foundation::RcpTwoPi<float>()`: the constant `1 / (2π)`. -/
noncomputable def RcpTwoPi : ℝ :=
  1 / (2 * Real.pi)

/-- Modelled from the spec: `foundation::Basis3f` (declared in
`foundation/math/basis.h`, not part of the analysed files) is an orthonormal
shading frame made of two tangents and the shading normal; the spec places
the sampling hemisphere at `z ≥ 0` in local space, so the shading normal is
the local z axis. -/
structure Basis3 where
  tangent_u : Vec3
  tangent_v : Vec3
  normal : Vec3

/-- `Basis3f::get_normal`. -/
def Basis3.get_normal (b : Basis3) : Vec3 :=
  b.normal

/-- Modelled from the spec: `Basis3f::transform_to_parent` maps local
coordinates onto the frame's axes (a norm-preserving orthonormal transform,
§4.1), with the local z axis mapped onto the shading normal. -/
noncomputable def Basis3.transform_to_parent (b : Basis3) (w : Vec3) : Vec3 :=
  vadd (vadd (smul w.x b.tangent_u) (smul w.y b.tangent_v)) (smul w.z b.normal)

/-- The frame invariant of §3: unit normal, tangents orthogonal to it. -/
def Basis3.Orthonormal (b : Basis3) : Prop :=
  dot b.normal b.normal = 1 ∧ dot b.tangent_u b.normal = 0 ∧
    dot b.tangent_v b.normal = 0

/-- Modelled from the spec: the scattering-mode bitset of
`renderer/kernel/lighting/scatteringmode.h` (not part of the analysed files):
flags {Diffuse, Glossy, Specular} with bitwise union and membership test. -/
def ScatteringMode.None : Nat := 0

/-- The Diffuse scattering-mode flag. -/
def ScatteringMode.Diffuse : Nat := 1

/-- The Glossy scattering-mode flag. -/
def ScatteringMode.Glossy : Nat := 2

/-- The Specular scattering-mode flag. -/
def ScatteringMode.Specular : Nat := 4

/-- `ScatteringMode::has_diffuse`: bitwise membership test of Diffuse. -/
def ScatteringMode.has_diffuse (modes : Nat) : Bool :=
  modes &&& ScatteringMode.Diffuse ≠ 0

/-- Modelled from the spec: `Spectrum` (§3, Spectral Value) is a fixed-size
vector of sample weights over channel bins supporting elementwise scaling;
modelled with three channel bins, as in the spec's scenarios. -/
structure Spectrum where
  c0 : ℝ
  c1 : ℝ
  c2 : ℝ

/-- `Spectrum::operator*=` with a scalar: elementwise scaling. -/
noncomputable def Spectrum.scale (s : Spectrum) (k : ℝ) : Spectrum :=
  ⟨s.c0 * k, s.c1 * k, s.c2 * k⟩

/-- The zero spectral value. -/
noncomputable def Spectrum.zero : Spectrum :=
  ⟨0, 0, 0⟩

/-- Every channel bin is non-negative (§3: "never produced with negative
components"). -/
def Spectrum.Nonneg (s : Spectrum) : Prop :=
  0 ≤ s.c0 ∧ 0 ≤ s.c1 ∧ 0 ≤ s.c2

/-- `SheenBRDFInputValues`: the resolved per-shading-point parameters
(`reflectance`, `reflectance_multiplier`) declared by `SheenBRDFImpl`'s
constructor. -/
structure SheenBRDFInputValues where
  m_reflectance : Spectrum
  m_reflectance_multiplier : ℝ

/-- Modelled from the spec: `BSDFSample` (§3, Scattering Sample Result), the
mutable output record of `sample`: the outgoing direction and shading basis it
was built with, the spectral transport weight, the probability density, the
scattering mode that produced the sample and the sampled incoming direction. -/
structure BSDFSample where
  m_outgoing : Vec3
  m_shading_basis : Basis3
  m_value : Spectrum
  m_probability : ℝ
  m_mode : Nat
  m_incoming : Vec3

/-- Modelled from the spec: the no-op initial state of a `BSDFSample` (§3:
"if the call does not produce a valid sample ... the weight must be left at
zero and mode left unset so the caller can detect a no-op sample"). -/
noncomputable def BSDFSample.init (outgoing : Vec3) (basis : Basis3) : BSDFSample :=
  ⟨outgoing, basis, Spectrum.zero, 0, ScatteringMode.None, ⟨0, 0, 0⟩⟩

/-- Modelled from the spec: `foundation::sample_hemisphere_uniform`
(declared in `foundation/math/sampling/mappings.h`, not part of the analysed
files) maps a 2D uniform sample in [0,1)² to a direction on the upper
hemisphere `z ≥ 0` in local space with constant density `1/(2π)` (§4.2):
the second coordinate is the local height, the first the azimuth fraction. -/
noncomputable def sample_hemisphere_uniform (s : ℝ × ℝ) : Vec3 :=
  let phi := 2 * Real.pi * s.1
  let r := Real.sqrt (1 - s.2 ^ 2)
  ⟨Real.cos phi * r, Real.sin phi * r, s.2⟩

/-- Modelled from the spec: `SamplingContext::split_in_place(2, 1)` followed by
`next2<Vector2f>()` draws one 2D sample, i.e. consumes the next two uniform
scalars of the random-sample source; the source is modelled as a list of
reals, of which the call consumes a prefix. -/
def next2_consume (rng : List ℝ) : List ℝ :=
  rng.drop 2

/-- The pair of scalars `next2<Vector2f>()` returns: the first two entries of
the random-sample source. -/
noncomputable def next2_value (rng : List ℝ) : ℝ × ℝ :=
  (rng.headD 0, (rng.drop 1).headD 0)

/-- `SheenBRDFImpl::sample` (sheenbrdf.cpp:94-127).  Takes the input record
(carrying the outgoing direction and shading basis) and the random-sample
source; returns the updated record and the rest of the source.  Below the
shading surface the call returns at once, leaving record and source
untouched; otherwise it draws a uniform-hemisphere direction in local space,
transforms it to parent space, evaluates the sheen term against the
half-vector, and fills in weight, constant pdf, mode and incoming direction. -/
noncomputable def sample (values : SheenBRDFInputValues) (adjoint : Bool)
    (cosine_mult : Bool) (samp : BSDFSample) (rng : List ℝ) :
    BSDFSample × List ℝ :=
  let cos_on := dot samp.m_outgoing samp.m_shading_basis.get_normal
  if cos_on < 0 then
    (samp, rng)
  else
    let s := next2_value rng
    let wi := sample_hemisphere_uniform s
    let incoming := samp.m_shading_basis.transform_to_parent wi
    let h := normalize (vadd incoming samp.m_outgoing)
    let cos_ih := dot incoming h
    let fh := pow_int5 (saturate (1 - cos_ih))
    ({ samp with
        m_value := values.m_reflectance.scale (fh * values.m_reflectance_multiplier)
        m_probability := RcpTwoPi
        m_mode := ScatteringMode.Diffuse
        m_incoming := incoming },
      next2_consume rng)

/-- `SheenBRDFImpl::evaluate` (sheenbrdf.cpp:129-160).  `value` is the
caller's output spectrum, passed by reference in the source and threaded
through here; the returned pair is (pdf, output spectrum).  Rejected queries
(mode mismatch, a direction below the shading surface) return pdf 0 with the
output spectrum untouched. -/
noncomputable def evaluate (values : SheenBRDFInputValues) (adjoint : Bool)
    (cosine_mult : Bool) (geometric_normal : Vec3) (shading_basis : Basis3)
    (outgoing : Vec3) (incoming : Vec3) (modes : Nat) (value : Spectrum) :
    ℝ × Spectrum :=
  if ScatteringMode.has_diffuse modes then
    let n := shading_basis.get_normal
    let cos_in := dot incoming n
    let cos_on := dot outgoing n
    if cos_in < 0 ∨ cos_on < 0 then
      (0, value)
    else
      let h := normalize (vadd incoming outgoing)
      let cos_ih := dot incoming h
      let fh := pow_int5 (saturate (1 - cos_ih))
      (RcpTwoPi, values.m_reflectance.scale (fh * values.m_reflectance_multiplier))
  else
    (0, value)

/-- `SheenBRDFImpl::evaluate_pdf` (sheenbrdf.cpp:162-181). -/
noncomputable def evaluate_pdf (values : SheenBRDFInputValues)
    (geometric_normal : Vec3) (shading_basis : Basis3) (outgoing : Vec3)
    (incoming : Vec3) (modes : Nat) : ℝ :=
  if ScatteringMode.has_diffuse modes then
    let n := shading_basis.get_normal
    let cos_in := dot incoming n
    let cos_on := dot outgoing n
    if cos_in < 0 ∨ cos_on < 0 then
      0
    else
      RcpTwoPi
  else
    0

/-- The spec's physical term (§4.4): `weight = reflectance * multiplier *
(1 - cos(incoming, half_vector))^5`, the base saturated into [0,1] before the
fifth power.  Written from the spec's words, to be compared with the weights
the source computes. -/
noncomputable def sheenWeightSpec (reflectance : Spectrum) (multiplier : ℝ)
    (cos_ih : ℝ) : Spectrum :=
  reflectance.scale (multiplier * saturate (1 - cos_ih) ^ 5)

end Appleseed

namespace Appleseed

/-! ## Serial renderer controller (serialrenderercontroller.cpp)

The tile-callback buffering collaborator: worker threads enqueue pending
tile notifications with `push_back` under a mutex; `exec_callbacks` drains
the queue front-to-back under the same mutex, dispatching each entry to the
wrapped `ITileCallback`.  The queue is modelled as a list (front at the
head), the dispatch targets as an event type. -/

/-- `PendingTileCallback::CallbackType` (the `m_type` discriminant). -/
inductive CallbackType where
  | OnTileBegin
  | OnTileEnd
  | OnProgressiveFrameEnd
deriving DecidableEq

/-- `SerialRendererController::PendingTileCallback`: the buffered
notification.  The `Frame*` pointer is modelled by an identifier. -/
structure PendingTileCallback where
  m_type : CallbackType
  m_frame : Nat
  m_tile_x : Nat
  m_tile_y : Nat
deriving DecidableEq

/-- The `m_pending_callbacks` deque: front of the queue at the head. -/
abbrev CallbackQueue := List PendingTileCallback

/-- `SerialRendererController::add_on_tile_begin_callback`
(serialrenderercontroller.cpp:96-110): push_back of an OnTileBegin record. -/
def add_on_tile_begin_callback (q : CallbackQueue) (frame tile_x tile_y : Nat) :
    CallbackQueue :=
  q ++ [⟨CallbackType.OnTileBegin, frame, tile_x, tile_y⟩]

/-- `SerialRendererController::add_on_tile_end_callback`
(serialrenderercontroller.cpp:112-126): push_back of an OnTileEnd record. -/
def add_on_tile_end_callback (q : CallbackQueue) (frame tile_x tile_y : Nat) :
    CallbackQueue :=
  q ++ [⟨CallbackType.OnTileEnd, frame, tile_x, tile_y⟩]

/-- `SerialRendererController::add_on_progressive_frame_end_callback`
(serialrenderercontroller.cpp:128-139): push_back of an
OnProgressiveFrameEnd record with zeroed tile coordinates. -/
def add_on_progressive_frame_end_callback (q : CallbackQueue) (frame : Nat) :
    CallbackQueue :=
  q ++ [⟨CallbackType.OnProgressiveFrameEnd, frame, 0, 0⟩]

/-- An invocation on the wrapped `ITileCallback`. -/
inductive TileEvent where
  | on_tile_begin (frame tile_x tile_y : Nat)
  | on_tile_end (frame tile_x tile_y : Nat)
  | on_progressive_frame_end (frame : Nat)
deriving DecidableEq

/-- `SerialRendererController::exec_callback`
(serialrenderercontroller.cpp:141-159): dispatch one pending record to the
matching `ITileCallback` method. -/
def exec_callback (cb : PendingTileCallback) : TileEvent :=
  match cb.m_type with
  | CallbackType.OnTileBegin =>
      TileEvent.on_tile_begin cb.m_frame cb.m_tile_x cb.m_tile_y
  | CallbackType.OnTileEnd =>
      TileEvent.on_tile_end cb.m_frame cb.m_tile_x cb.m_tile_y
  | CallbackType.OnProgressiveFrameEnd =>
      TileEvent.on_progressive_frame_end cb.m_frame

/-- `SerialRendererController::exec_callbacks`
(serialrenderercontroller.cpp:161-170): `while (!empty) { exec(front);
pop_front; }`.  Returns the dispatched events in execution order together
with the queue left behind. -/
def exec_callbacks : CallbackQueue → List TileEvent × CallbackQueue
  | [] => ([], [])
  | cb :: rest =>
      let r := exec_callbacks rest
      (exec_callback cb :: r.1, r.2)

/-- One enqueue operation arriving at the controller. -/
inductive EnqueueOp where
  | tileBegin (frame tile_x tile_y : Nat)
  | tileEnd (frame tile_x tile_y : Nat)
  | progressiveFrameEnd (frame : Nat)
deriving DecidableEq

/-- Apply one arriving enqueue operation to the queue. -/
def applyOp (q : CallbackQueue) : EnqueueOp → CallbackQueue
  | EnqueueOp.tileBegin f tx ty => add_on_tile_begin_callback q f tx ty
  | EnqueueOp.tileEnd f tx ty => add_on_tile_end_callback q f tx ty
  | EnqueueOp.progressiveFrameEnd f => add_on_progressive_frame_end_callback q f

/-- Apply a sequence of enqueue operations in arrival order. -/
def applyOps (q : CallbackQueue) (ops : List EnqueueOp) : CallbackQueue :=
  ops.foldl applyOp q

/-- The pending record each enqueue operation pushes. -/
def opRecord : EnqueueOp → PendingTileCallback
  | EnqueueOp.tileBegin f tx ty => ⟨CallbackType.OnTileBegin, f, tx, ty⟩
  | EnqueueOp.tileEnd f tx ty => ⟨CallbackType.OnTileEnd, f, tx, ty⟩
  | EnqueueOp.progressiveFrameEnd f => ⟨CallbackType.OnProgressiveFrameEnd, f, 0, 0⟩

/-- A concrete parameter set used by closed witnesses: reflectance
(0.5, 0.5, 0.5) and multiplier 1, as in the spec's scenarios. -/
noncomputable def halfGrey : SheenBRDFInputValues :=
  ⟨⟨1 / 2, 1 / 2, 1 / 2⟩, 1⟩

/-- The standard orthonormal frame with normal (0,0,1), used by witnesses. -/
noncomputable def stdBasis : Basis3 :=
  ⟨⟨1, 0, 0⟩, ⟨0, 1, 0⟩, ⟨0, 0, 1⟩⟩

/-! ## Theorems -/

/-- Claim C1: for every pair of unit directions (outgoing, incoming) both
above the shading surface (non-negative cosine against the shading normal)
and every requested-mode set including Diffuse, the pdf value returned by
`evaluate` equals the pdf value returned by `evaluate_pdf` on the same
inputs. -/
theorem evaluate_pdf_consistent
    (values : SheenBRDFInputValues) (adjoint cosine_mult : Bool)
    (gn : Vec3) (basis : Basis3) (outgoing incoming : Vec3) (modes : Nat)
    (value : Spectrum)
    (hunit_o : dot outgoing outgoing = 1) (hunit_i : dot incoming incoming = 1)
    (hmode : ScatteringMode.has_diffuse modes = true)
    (hon : 0 ≤ dot outgoing basis.get_normal)
    (hin : 0 ≤ dot incoming basis.get_normal) :
    (evaluate values adjoint cosine_mult gn basis outgoing incoming modes
        value).1
      = evaluate_pdf values gn basis outgoing incoming modes := by
  have hrej : ¬ (dot incoming basis.get_normal < 0 ∨
      dot outgoing basis.get_normal < 0) := by
    push_neg
    exact ⟨hin, hon⟩
  simp [evaluate, evaluate_pdf, hmode, hrej]

/-- Closed instance of C1: outgoing = incoming = shading normal of the
standard frame, Diffuse requested. -/
theorem evaluate_pdf_consistent_witness :
    (evaluate halfGrey false false ⟨0, 0, 1⟩ stdBasis ⟨0, 0, 1⟩ ⟨0, 0, 1⟩ 1
        Spectrum.zero).1
      = evaluate_pdf halfGrey ⟨0, 0, 1⟩ stdBasis ⟨0, 0, 1⟩ ⟨0, 0, 1⟩ 1 :=
  evaluate_pdf_consistent halfGrey false false ⟨0, 0, 1⟩ stdBasis ⟨0, 0, 1⟩
    ⟨0, 0, 1⟩ 1 Spectrum.zero
    (by norm_num [dot]) (by norm_num [dot]) (by rfl)
    (by norm_num [dot, stdBasis, Basis3.get_normal])
    (by norm_num [dot, stdBasis, Basis3.get_normal])

/-- Claim C5: for every pair of directions (valid or not) and every
requested-mode set that does not include Diffuse, `evaluate` and
`evaluate_pdf` return exactly zero pdf immediately — `evaluate` does not even
touch the output spectrum — as a silent fast reject, not an error. -/
theorem mode_mismatch_fast_reject
    (values : SheenBRDFInputValues) (adjoint cosine_mult : Bool)
    (gn : Vec3) (basis : Basis3) (outgoing incoming : Vec3) (modes : Nat)
    (value : Spectrum)
    (hmode : ScatteringMode.has_diffuse modes = false) :
    evaluate values adjoint cosine_mult gn basis outgoing incoming modes value
        = (0, value)
    ∧ evaluate_pdf values gn basis outgoing incoming modes = 0 := by
  constructor <;> simp [evaluate, evaluate_pdf, hmode]

/-- Closed instance of C5: modes = Glossy ∪ Specular, directions below the
surface. -/
theorem mode_mismatch_fast_reject_witness :
    evaluate halfGrey false false ⟨0, 0, 1⟩ stdBasis ⟨0, 0, -1⟩ ⟨0, 0, -1⟩ 6
        Spectrum.zero = (0, Spectrum.zero)
    ∧ evaluate_pdf halfGrey ⟨0, 0, 1⟩ stdBasis ⟨0, 0, -1⟩ ⟨0, 0, -1⟩ 6 = 0 :=
  mode_mismatch_fast_reject halfGrey false false ⟨0, 0, 1⟩ stdBasis
    ⟨0, 0, -1⟩ ⟨0, 0, -1⟩ 6 Spectrum.zero (by rfl)

/-- Claim C8: for the sheen model the boolean flags `adjoint` and
`cosine_mult` never affect the outputs: two runs of `sample` (or of
`evaluate`) that differ only in these flags produce identical results —
weight, pdf, mode and incoming direction included. -/
theorem flags_never_affect_outputs
    (values : SheenBRDFInputValues) (a₁ c₁ a₂ c₂ : Bool) (gn : Vec3)
    (basis : Basis3) (outgoing incoming : Vec3) (modes : Nat)
    (value : Spectrum) (samp : BSDFSample) (rng : List ℝ) :
    sample values a₁ c₁ samp rng = sample values a₂ c₂ samp rng
    ∧ evaluate values a₁ c₁ gn basis outgoing incoming modes value
        = evaluate values a₂ c₂ gn basis outgoing incoming modes value :=
  ⟨rfl, rfl⟩

/-- Claim C4: for a direction pair with either cosine against the shading
normal negative, `evaluate` and `evaluate_pdf` return exactly zero pdf, and
`sample` called below the surface returns leaving its result record in the
no-op state — weight zero and mode unset — consuming nothing and raising no
error. -/
theorem below_surface_rejection
    (values : SheenBRDFInputValues) (adjoint cosine_mult : Bool) (gn : Vec3)
    (basis : Basis3) (outgoing incoming : Vec3) (modes : Nat)
    (value : Spectrum) (outgoing₂ : Vec3) (basis₂ : Basis3) (rng : List ℝ)
    (h : dot incoming basis.get_normal < 0 ∨
      dot outgoing basis.get_normal < 0)
    (h₂ : dot outgoing₂ basis₂.get_normal < 0) :
    (evaluate values adjoint cosine_mult gn basis outgoing incoming modes
        value).1 = 0
    ∧ evaluate_pdf values gn basis outgoing incoming modes = 0
    ∧ sample values adjoint cosine_mult (BSDFSample.init outgoing₂ basis₂) rng
        = (BSDFSample.init outgoing₂ basis₂, rng)
    ∧ (BSDFSample.init outgoing₂ basis₂).m_value = Spectrum.zero
    ∧ (BSDFSample.init outgoing₂ basis₂).m_mode = ScatteringMode.None := by
  refine ⟨?_, ?_, ?_, rfl, rfl⟩
  · by_cases hm : ScatteringMode.has_diffuse modes <;>
      simp [evaluate, hm, h]
  · by_cases hm : ScatteringMode.has_diffuse modes <;>
      simp [evaluate_pdf, hm, h]
  · simp [sample, BSDFSample.init, h₂]

/-- Closed instance of C4: incoming and the second outgoing below the
standard frame. -/
theorem below_surface_rejection_witness :
    (evaluate halfGrey false false ⟨0, 0, 1⟩ stdBasis ⟨0, 0, 1⟩ ⟨0, 0, -1⟩ 1
        Spectrum.zero).1 = 0
    ∧ evaluate_pdf halfGrey ⟨0, 0, 1⟩ stdBasis ⟨0, 0, 1⟩ ⟨0, 0, -1⟩ 1 = 0
    ∧ sample halfGrey false false (BSDFSample.init ⟨0, 0, -1⟩ stdBasis) [0, 0]
        = (BSDFSample.init ⟨0, 0, -1⟩ stdBasis, [0, 0])
    ∧ (BSDFSample.init ⟨0, 0, -1⟩ stdBasis).m_value = Spectrum.zero
    ∧ (BSDFSample.init ⟨0, 0, -1⟩ stdBasis).m_mode = ScatteringMode.None :=
  below_surface_rejection halfGrey false false ⟨0, 0, 1⟩ stdBasis ⟨0, 0, 1⟩
    ⟨0, 0, -1⟩ 1 Spectrum.zero ⟨0, 0, -1⟩ stdBasis [0, 0]
    (Or.inl (by norm_num [dot, stdBasis, Basis3.get_normal]))
    (by norm_num [dot, stdBasis, Basis3.get_normal])

/-- Claim C3: for every non-rejected query, the pdf reported by `sample`,
`evaluate` and `evaluate_pdf` is the constant `1 / (2π)` of uniform
hemisphere sampling. -/
theorem pdf_is_uniform_hemisphere_constant
    (values : SheenBRDFInputValues) (adjoint cosine_mult : Bool) (gn : Vec3)
    (basis : Basis3) (outgoing incoming : Vec3) (modes : Nat)
    (value : Spectrum) (samp : BSDFSample) (rng : List ℝ)
    (hmode : ScatteringMode.has_diffuse modes = true)
    (hon : 0 ≤ dot outgoing basis.get_normal)
    (hin : 0 ≤ dot incoming basis.get_normal)
    (hson : 0 ≤ dot samp.m_outgoing samp.m_shading_basis.get_normal) :
    (sample values adjoint cosine_mult samp rng).1.m_probability
        = 1 / (2 * Real.pi)
    ∧ (evaluate values adjoint cosine_mult gn basis outgoing incoming modes
        value).1 = 1 / (2 * Real.pi)
    ∧ evaluate_pdf values gn basis outgoing incoming modes
        = 1 / (2 * Real.pi) := by
  have hrej : ¬ (dot incoming basis.get_normal < 0 ∨
      dot outgoing basis.get_normal < 0) := by
    push_neg
    exact ⟨hin, hon⟩
  have hs := not_lt.2 hson
  refine ⟨?_, ?_, ?_⟩
  · simp [sample, hs, RcpTwoPi]
  · simp [evaluate, hmode, hrej, RcpTwoPi]
  · simp [evaluate_pdf, hmode, hrej, RcpTwoPi]

/-- Closed instance of C3, the head-on scenario of the spec: reflectance
(0.5, 0.5, 0.5), multiplier 1, outgoing = incoming = shading normal; the
half-vector is the normal, cos(incoming, half) = 1, so the weight is
(0, 0, 0) while every reported pdf is 1 / (2π). -/
theorem pdf_is_uniform_hemisphere_constant_witness :
    ((sample halfGrey false false (BSDFSample.init ⟨0, 0, 1⟩ stdBasis)
        [0, 0]).1.m_probability = 1 / (2 * Real.pi)
      ∧ (evaluate halfGrey false false ⟨0, 0, 1⟩ stdBasis ⟨0, 0, 1⟩ ⟨0, 0, 1⟩ 1
          Spectrum.zero).1 = 1 / (2 * Real.pi)
      ∧ evaluate_pdf halfGrey ⟨0, 0, 1⟩ stdBasis ⟨0, 0, 1⟩ ⟨0, 0, 1⟩ 1
          = 1 / (2 * Real.pi))
    ∧ (evaluate halfGrey false false ⟨0, 0, 1⟩ stdBasis ⟨0, 0, 1⟩ ⟨0, 0, 1⟩ 1
        Spectrum.zero).2 = Spectrum.zero := by
  constructor
  · exact pdf_is_uniform_hemisphere_constant halfGrey false false ⟨0, 0, 1⟩
      stdBasis ⟨0, 0, 1⟩ ⟨0, 0, 1⟩ 1 Spectrum.zero
      (BSDFSample.init ⟨0, 0, 1⟩ stdBasis) [0, 0] (by rfl)
      (by norm_num [dot, stdBasis, Basis3.get_normal])
      (by norm_num [dot, stdBasis, Basis3.get_normal])
      (by norm_num [dot, stdBasis, Basis3.get_normal, BSDFSample.init])
  · have hs4 : Real.sqrt 4 = 2 := by
      rw [show (4 : ℝ) = 2 ^ 2 by norm_num]
      exact Real.sqrt_sq (by norm_num)
    have hdotv : dot (vadd ⟨0, 0, 1⟩ ⟨0, 0, 1⟩) (vadd ⟨0, 0, 1⟩ ⟨0, 0, 1⟩)
        = (4 : ℝ) := by
      norm_num [dot, vadd]
    simp only [evaluate, stdBasis, Basis3.get_normal, normalize, hdotv, hs4]
    norm_num [dot, vadd, saturate, pow_int5, halfGrey, Spectrum.scale,
      Spectrum.zero, ScatteringMode.has_diffuse, ScatteringMode.Diffuse]

/-- Claim C2: for every non-rejected query, `sample` and `evaluate` compute
the spectral weight exactly as the spec's formula
`reflectance * multiplier * saturate(1 - cos(incoming, half_vector))^5`,
the half-vector being the normalized sum of incoming and outgoing. -/
theorem weight_matches_spec_formula
    (values : SheenBRDFInputValues) (adjoint cosine_mult : Bool) (gn : Vec3)
    (basis : Basis3) (outgoing incoming : Vec3) (modes : Nat)
    (value : Spectrum) (samp : BSDFSample) (rng : List ℝ)
    (hmode : ScatteringMode.has_diffuse modes = true)
    (hon : 0 ≤ dot outgoing basis.get_normal)
    (hin : 0 ≤ dot incoming basis.get_normal)
    (hson : 0 ≤ dot samp.m_outgoing samp.m_shading_basis.get_normal) :
    (evaluate values adjoint cosine_mult gn basis outgoing incoming modes
        value).2
      = sheenWeightSpec values.m_reflectance values.m_reflectance_multiplier
          (dot incoming (normalize (vadd incoming outgoing)))
    ∧ (sample values adjoint cosine_mult samp rng).1.m_value
      = sheenWeightSpec values.m_reflectance values.m_reflectance_multiplier
          (dot (samp.m_shading_basis.transform_to_parent
              (sample_hemisphere_uniform (next2_value rng)))
            (normalize (vadd (samp.m_shading_basis.transform_to_parent
              (sample_hemisphere_uniform (next2_value rng)))
              samp.m_outgoing))) := by
  have hrej : ¬ (dot incoming basis.get_normal < 0 ∨
      dot outgoing basis.get_normal < 0) := by
    push_neg
    exact ⟨hin, hon⟩
  have hs := not_lt.2 hson
  constructor
  · have e1 : (evaluate values adjoint cosine_mult gn basis outgoing incoming
        modes value).2
        = values.m_reflectance.scale
            (pow_int5 (saturate
                (1 - dot incoming (normalize (vadd incoming outgoing))))
              * values.m_reflectance_multiplier) := by
      simp [evaluate, hmode, hrej]
    rw [e1]
    unfold sheenWeightSpec pow_int5
    rw [mul_comm]
  · have e2 : (sample values adjoint cosine_mult samp rng).1.m_value
        = values.m_reflectance.scale
            (pow_int5 (saturate
                (1 - dot (samp.m_shading_basis.transform_to_parent
                    (sample_hemisphere_uniform (next2_value rng)))
                  (normalize (vadd (samp.m_shading_basis.transform_to_parent
                    (sample_hemisphere_uniform (next2_value rng)))
                    samp.m_outgoing))))
              * values.m_reflectance_multiplier) := by
      simp [sample, hs]
    rw [e2]
    unfold sheenWeightSpec pow_int5
    rw [mul_comm]

/-- Closed instance of C2, the 90-degree scenario of the spec: reflectance
(0.5, 0.5, 0.5), multiplier 1, incoming orthogonal to the half-vector
(cos_ih = 0), so the weight equals the reflectance itself. -/
theorem weight_matches_spec_formula_witness :
    (evaluate halfGrey false false ⟨0, 0, 1⟩ stdBasis ⟨-3, 0, 1⟩ ⟨1, 0, 1⟩ 1
        Spectrum.zero).2 = ⟨1 / 2, 1 / 2, 1 / 2⟩ := by
  have h := (weight_matches_spec_formula halfGrey false false ⟨0, 0, 1⟩
    stdBasis ⟨-3, 0, 1⟩ ⟨1, 0, 1⟩ 1 Spectrum.zero
    (BSDFSample.init ⟨0, 0, 1⟩ stdBasis) [0, 0] (by rfl)
    (by norm_num [dot, stdBasis, Basis3.get_normal])
    (by norm_num [dot, stdBasis, Basis3.get_normal])
    (by norm_num [dot, stdBasis, Basis3.get_normal, BSDFSample.init])).1
  rw [h]
  have hcos : dot ⟨1, 0, 1⟩ (normalize (vadd ⟨1, 0, 1⟩ ⟨-3, 0, 1⟩)) = 0 := by
    simp only [normalize, vadd, dot]
    ring_nf
  rw [hcos]
  norm_num [sheenWeightSpec, saturate, Spectrum.scale, halfGrey]

/-- The saturated base is never negative: the clamp of §7 bounds it below
by zero. -/
theorem saturate_nonneg (t : ℝ) : 0 ≤ saturate t :=
  le_max_left 0 (min t 1)

/-- Scaling a componentwise non-negative spectrum by a non-negative scalar
keeps every channel non-negative. -/
theorem scale_nonneg (s : Spectrum) (k : ℝ) (hs : s.Nonneg) (hk : 0 ≤ k) :
    (s.scale k).Nonneg :=
  ⟨mul_nonneg hs.1 hk, mul_nonneg hs.2.1 hk, mul_nonneg hs.2.2 hk⟩

/-- Claim C6: with a componentwise non-negative reflectance and a
non-negative multiplier, every spectral channel of any weight returned by
`sample` (from the no-op initial record) or by `evaluate` (on a valid,
non-rejected query) is non-negative: the scalar factor, saturated into
[0,1] before the fifth power, is never negative. -/
theorem weight_channels_nonneg
    (values : SheenBRDFInputValues) (adjoint cosine_mult : Bool) (gn : Vec3)
    (basis : Basis3) (outgoing incoming : Vec3) (modes : Nat)
    (value : Spectrum) (outgoing₂ : Vec3) (basis₂ : Basis3) (rng : List ℝ)
    (hrefl : values.m_reflectance.Nonneg)
    (hmult : 0 ≤ values.m_reflectance_multiplier)
    (hmode : ScatteringMode.has_diffuse modes = true)
    (hon : 0 ≤ dot outgoing basis.get_normal)
    (hin : 0 ≤ dot incoming basis.get_normal) :
    ((sample values adjoint cosine_mult (BSDFSample.init outgoing₂ basis₂)
        rng).1.m_value).Nonneg
    ∧ ((evaluate values adjoint cosine_mult gn basis outgoing incoming modes
        value).2).Nonneg := by
  have hrej : ¬ (dot incoming basis.get_normal < 0 ∨
      dot outgoing basis.get_normal < 0) := by
    push_neg
    exact ⟨hin, hon⟩
  have hfactor : ∀ t : ℝ, 0 ≤ pow_int5 (saturate t) *
      values.m_reflectance_multiplier := fun t =>
    mul_nonneg (pow_nonneg (saturate_nonneg t) 5) hmult
  constructor
  · by_cases hrc : dot (BSDFSample.init outgoing₂ basis₂).m_outgoing
        (BSDFSample.init outgoing₂ basis₂).m_shading_basis.get_normal < 0
    · have e : (sample values adjoint cosine_mult
          (BSDFSample.init outgoing₂ basis₂) rng).1
          = BSDFSample.init outgoing₂ basis₂ := by
        simp [sample, hrc]
      rw [e]
      exact ⟨le_refl 0, le_refl 0, le_refl 0⟩
    · have e : (sample values adjoint cosine_mult
          (BSDFSample.init outgoing₂ basis₂) rng).1.m_value
          = values.m_reflectance.scale
              (pow_int5 (saturate
                  (1 - dot ((BSDFSample.init outgoing₂
                      basis₂).m_shading_basis.transform_to_parent
                      (sample_hemisphere_uniform (next2_value rng)))
                    (normalize (vadd ((BSDFSample.init outgoing₂
                      basis₂).m_shading_basis.transform_to_parent
                      (sample_hemisphere_uniform (next2_value rng)))
                      (BSDFSample.init outgoing₂ basis₂).m_outgoing))))
                * values.m_reflectance_multiplier) := by
        simp [sample, hrc]
      rw [e]
      exact scale_nonneg _ _ hrefl (hfactor _)
  · have e : (evaluate values adjoint cosine_mult gn basis outgoing incoming
        modes value).2
        = values.m_reflectance.scale
            (pow_int5 (saturate
                (1 - dot incoming (normalize (vadd incoming outgoing))))
              * values.m_reflectance_multiplier) := by
      simp [evaluate, hmode, hrej]
    rw [e]
    exact scale_nonneg _ _ hrefl (hfactor _)

/-- Closed instance of C6 at the spec's parameters and an above-surface
pair. -/
theorem weight_channels_nonneg_witness :
    ((sample halfGrey false false (BSDFSample.init ⟨0, 0, 1⟩ stdBasis)
        [0, 0]).1.m_value).Nonneg
    ∧ ((evaluate halfGrey false false ⟨0, 0, 1⟩ stdBasis ⟨0, 0, 1⟩ ⟨0, 0, 1⟩ 1
        Spectrum.zero).2).Nonneg :=
  weight_channels_nonneg halfGrey false false ⟨0, 0, 1⟩ stdBasis ⟨0, 0, 1⟩
    ⟨0, 0, 1⟩ 1 Spectrum.zero ⟨0, 0, 1⟩ stdBasis [0, 0]
    (by norm_num [halfGrey, Spectrum.Nonneg]) (by norm_num [halfGrey])
    (by rfl)
    (by norm_num [dot, stdBasis, Basis3.get_normal])
    (by norm_num [dot, stdBasis, Basis3.get_normal])

/-- Counterexample to C7 as stated: a call to `sample` with the outgoing
direction below the shading surface returns before touching the
random-sample source, so it consumes 0 scalars, not 2. -/
theorem sample_consumes_two_counterexample :
    ¬ (([(1 : ℝ) / 4, 1 / 2].length
        - ((sample halfGrey false false
            (BSDFSample.init ⟨0, 0, -1⟩ stdBasis)
            [(1 : ℝ) / 4, 1 / 2]).2).length) = 2) := by
  have h : dot (⟨0, 0, -1⟩ : Vec3)
      (Basis3.get_normal stdBasis) < 0 := by
    norm_num [dot, stdBasis, Basis3.get_normal]
  have e : (sample halfGrey false false (BSDFSample.init ⟨0, 0, -1⟩ stdBasis)
      [(1 : ℝ) / 4, 1 / 2]).2 = [(1 : ℝ) / 4, 1 / 2] := by
    simp [sample, BSDFSample.init, h]
  rw [e]
  decide

/-- Claim C7, amended: a call to `sample` whose outgoing direction is above
the shading surface consumes exactly 2 uniform scalars from the
random-sample source (provided the source supplies at least 2); a call with
the outgoing direction below the surface returns at once and consumes
none. -/
theorem sample_consumption
    (values : SheenBRDFInputValues) (adjoint cosine_mult : Bool)
    (samp : BSDFSample) (rng : List ℝ) :
    (0 ≤ dot samp.m_outgoing samp.m_shading_basis.get_normal →
      2 ≤ rng.length →
      rng.length - ((sample values adjoint cosine_mult samp rng).2).length
        = 2)
    ∧ (dot samp.m_outgoing samp.m_shading_basis.get_normal < 0 →
      (sample values adjoint cosine_mult samp rng).2 = rng) := by
  constructor
  · intro hon hlen
    have hs := not_lt.2 hon
    have e : (sample values adjoint cosine_mult samp rng).2 = rng.drop 2 := by
      simp [sample, hs, next2_consume]
    rw [e, List.length_drop]
    omega
  · intro hneg
    simp [sample, hneg]

/-- Closed instance of the amended C7: an above-surface call on a two-entry
source consumes both scalars. -/
theorem sample_consumption_witness :
    0 ≤ dot (BSDFSample.init ⟨0, 0, 1⟩ stdBasis).m_outgoing
        (BSDFSample.init ⟨0, 0, 1⟩ stdBasis).m_shading_basis.get_normal
    ∧ [(1 : ℝ) / 4, 1 / 2].length
        - ((sample halfGrey false false (BSDFSample.init ⟨0, 0, 1⟩ stdBasis)
            [(1 : ℝ) / 4, 1 / 2]).2).length = 2 := by
  have hon : 0 ≤ dot (BSDFSample.init ⟨0, 0, 1⟩ stdBasis).m_outgoing
      (BSDFSample.init ⟨0, 0, 1⟩ stdBasis).m_shading_basis.get_normal := by
    norm_num [dot, stdBasis, Basis3.get_normal, BSDFSample.init]
  exact ⟨hon,
    (sample_consumption halfGrey false false
      (BSDFSample.init ⟨0, 0, 1⟩ stdBasis) [(1 : ℝ) / 4, 1 / 2]).1 hon
      (by decide)⟩

/-- The while loop of `exec_callbacks` dispatches the queue front-to-back,
one dispatch per entry, and leaves the queue empty. -/
theorem exec_callbacks_eq (q : CallbackQueue) :
    exec_callbacks q = (q.map exec_callback, []) := by
  induction q with
  | nil => rfl
  | cons cb rest ih => simp [exec_callbacks, ih]

/-- Arriving enqueue operations append their pending records to the back of
the queue in arrival order. -/
theorem applyOps_eq (q : CallbackQueue) (ops : List EnqueueOp) :
    applyOps q ops = q ++ ops.map opRecord := by
  induction ops generalizing q with
  | nil => simp [applyOps]
  | cons op rest ih =>
      have step : applyOps q (op :: rest) = applyOps (applyOp q op) rest := rfl
      rw [step, ih]
      cases op <;>
        simp [applyOp, add_on_tile_begin_callback, add_on_tile_end_callback,
          add_on_progressive_frame_end_callback, opRecord]

/-- Claim C9: the tile-callback buffering collaborator replays pending
notifications in arrival order: after any sequence of enqueued callbacks
(tile-begin, tile-end, progressive-frame-end) lands on the pending queue, a
drain dispatches each pending callback exactly once, in the exact order in
which it was enqueued, and removes it from the queue. -/
theorem drain_replays_in_arrival_order (q : CallbackQueue)
    (ops : List EnqueueOp) :
    exec_callbacks (applyOps q ops)
      = ((q ++ ops.map opRecord).map exec_callback, []) := by
  rw [applyOps_eq, exec_callbacks_eq]

/-- Claim C10: whenever `sample` produces a sample (outgoing above the
surface), the sampled incoming direction lies in the upper hemisphere of an
orthonormal shading basis: with the drawn uniform scalars in [0,1), its
cosine against the shading normal is non-negative by construction of
uniform hemisphere sampling in local space, so `sample` never needs to
check or reject the incoming direction it generates. -/
theorem sampled_incoming_above_surface
    (values : SheenBRDFInputValues) (adjoint cosine_mult : Bool)
    (samp : BSDFSample) (rng : List ℝ)
    (hb : samp.m_shading_basis.Orthonormal)
    (hon : 0 ≤ dot samp.m_outgoing samp.m_shading_basis.get_normal)
    (hz : 0 ≤ (next2_value rng).2) :
    0 ≤ dot (sample values adjoint cosine_mult samp rng).1.m_incoming
        samp.m_shading_basis.get_normal := by
  obtain ⟨hnn, hun, hvn⟩ := hb
  have hs := not_lt.2 hon
  have e : (sample values adjoint cosine_mult samp rng).1.m_incoming
      = samp.m_shading_basis.transform_to_parent
          (sample_hemisphere_uniform (next2_value rng)) := by
    simp [sample, hs]
  rw [e]
  have key : ∀ w : Vec3, dot (samp.m_shading_basis.transform_to_parent w)
      samp.m_shading_basis.get_normal = w.z := by
    intro w
    simp only [dot] at hnn hun hvn
    simp only [Basis3.transform_to_parent, Basis3.get_normal, dot, vadd, smul]
    linear_combination w.x * hun + w.y * hvn + w.z * hnn
  rw [key]
  simpa [sample_hemisphere_uniform] using hz

/-- Closed instance of C10: the standard frame, outgoing along the normal,
scalars (0, 1/2). -/
theorem sampled_incoming_above_surface_witness :
    0 ≤ dot (sample halfGrey false false (BSDFSample.init ⟨0, 0, 1⟩ stdBasis)
        [0, 1 / 2]).1.m_incoming
        (BSDFSample.init ⟨0, 0, 1⟩ stdBasis).m_shading_basis.get_normal :=
  sampled_incoming_above_surface halfGrey false false
    (BSDFSample.init ⟨0, 0, 1⟩ stdBasis) [0, 1 / 2]
    (by norm_num [Basis3.Orthonormal, dot, stdBasis, BSDFSample.init])
    (by norm_num [dot, stdBasis, Basis3.get_normal, BSDFSample.init])
    (by norm_num [next2_value])

end Appleseed
